import Mathlib

/-!
Shallow embedding of the request execution pipeline of the semrush-mcp
repository (src/semrush-api.ts): the rate limiter, the shared
`makeRequest` path (credential injection, cache key computation, cache
lookup and store, error normalization) and the parameter-building
operation methods.  Clock readings (`Date.now()`) are modelled as `Int`
milliseconds; JS objects used as query-parameter maps are modelled as
insertion-ordered association lists; JSON values as a small inductive.
-/

namespace SemrushMcp

/-- A JSON value, modelling the `data` payload of an HTTP response and
the `response` field of an error. -/
inductive Json where
  | str (s : String)
  | num (n : Int)
  | bool (b : Bool)
  | null
  | arr (elems : List Json)
  | obj (fields : List (String × Json))

/-- JS truthiness of a JSON value: empty string, zero, `false` and
`null` are falsy; every object and array (even empty) is truthy. -/
def jsTruthy : Json → Bool
  | .str s => s ≠ ""
  | .num n => n ≠ 0
  | .bool b => b
  | .null => false
  | .arr _ => true
  | .obj _ => true

/-- JS optional member access `v?.field`: a lookup on a non-object (or a
missing field) yields `none` (undefined). -/
def jsonLookup (j : Json) (field : String) : Option Json :=
  match j with
  | .obj fields => fields.lookup field
  | _ => none

mutual

/-- JS `String(v)` coercion applied by the `Error` constructor to its
message argument. -/
def jsToString : Json → String
  | .str s => s
  | .num n => toString n
  | .bool b => if b then "true" else "false"
  | .null => "null"
  | .obj _ => "[object Object]"
  | .arr elems => jsToStringElems elems

/-- JS `Array.prototype.toString`: elements joined by commas, with
`null` rendered empty. -/
def jsToStringElems : List Json → String
  | [] => ""
  | [x] => jsToStringElem x
  | x :: xs => jsToStringElem x ++ "," ++ jsToStringElems xs

/-- One array element inside JS array-to-string conversion. -/
def jsToStringElem : Json → String
  | .null => ""
  | j => jsToString j

end

/-- A value of the TS `ApiQueryParams` map actually stored by the
operation methods: string, number or boolean (the `undefined` member of
the TS union is never stored, because optional fields are added only
inside truthiness guards). -/
inductive QueryValue where
  | str (s : String)
  | num (n : Int)
  | bool (b : Bool)
deriving DecidableEq

/-- Escape of one character inside a JSON string literal, as produced by
`JSON.stringify` for the characters that occur in query parameters. -/
def escapeJsonChar (c : Char) : String :=
  if c = '"' then "\\\""
  else if c = '\\' then "\\\\"
  else if c = '\n' then "\\n"
  else if c = '\r' then "\\r"
  else if c = '\t' then "\\t"
  else String.singleton c

/-- Escape of a whole string for a JSON string literal. -/
def escapeJsonString (s : String) : String :=
  String.join (s.toList.map escapeJsonChar)

/-- A JSON string literal: escaped content between double quotes. -/
def jsonQuote (s : String) : String :=
  "\"" ++ escapeJsonString s ++ "\""

/-- Serialization of one query value inside `JSON.stringify`. -/
def stringifyQueryValue : QueryValue → String
  | .str s => jsonQuote s
  | .num n => toString n
  | .bool b => if b then "true" else "false"

/-- Model of `JSON.stringify` applied to a flat query-parameter object:
fields in insertion order, `"k":v` pairs joined by commas between
braces. -/
def jsonStringifyParams (ps : List (String × QueryValue)) : String :=
  "\x7b" ++ String.intercalate ","
      (ps.map (fun p => jsonQuote p.1 ++ ":" ++ stringifyQueryValue p.2))
    ++ "\x7d"

/-- JS object property assignment under the unique-key discipline of an
object literal: `\x7b ...ps, k: v \x7d` replaces the value of `k` in
place when present and appends the property otherwise. -/
def setParam : List (String × QueryValue) → String → QueryValue →
    List (String × QueryValue)
  | [], k, v => [(k, v)]
  | (k', v') :: rest, k, v =>
    if k' = k then (k, v) :: rest else (k', v') :: setParam rest k v

/-- Lines 98 to 101 of semrush-api.ts: the request parameters are the
caller parameters with the configured API key added under `key`. -/
def buildRequestParams (params : List (String × QueryValue)) (apiKey : String) :
    List (String × QueryValue) :=
  setParam params "key" (.str apiKey)

/-- Line 104 of semrush-api.ts: the cache key is the URL, a colon, and
the JSON serialization of the full request parameters. -/
def cacheKeyOf (url : String) (params : List (String × QueryValue))
    (apiKey : String) : String :=
  url ++ ":" ++ jsonStringifyParams (buildRequestParams params apiKey)

/-- The `SemrushApiResponse` envelope: raw payload, status, headers. -/
structure SemrushApiResponse where
  data : Json
  status : Nat
  headers : List (String × String)

/-- The `SemrushApiError` shape thrown by `makeRequest`: message, status
and the optional raw upstream error payload. -/
structure SemrushApiError where
  message : String
  status : Nat
  response : Option Json

/-- One stored cache entry of the node-cache instance: the envelope and
the absolute expiry instant in milliseconds (`0` meaning no expiry,
matching the internal representation of node-cache). -/
structure CacheEntry where
  value : SemrushApiResponse
  expiresAt : Int

/-- The process-wide response cache, keyed by the computed cache key. -/
def Cache := List (String × CacheEntry)

/-- Replace-or-append on the cache, matching the set operation of
node-cache on a keyed store with unique keys. -/
def setEntry : Cache → String → CacheEntry → Cache
  | [], k, e => [(k, e)]
  | (k', e') :: rest, k, e =>
    if k' = k then (k, e) :: rest else (k', e') :: setEntry rest k e

/-- Cache lookup at clock reading `now`: an entry is returned unless its
expiry is set (nonzero) and lies strictly in the past, matching the
expiry check of node-cache (an expired entry is treated as a miss). -/
def cacheGet (c : Cache) (k : String) (now : Int) : Option SemrushApiResponse :=
  match List.lookup k c with
  | some entry =>
    if entry.expiresAt ≠ 0 ∧ entry.expiresAt < now then none else some entry.value
  | none => none

/-- Cache store with the configured standard TTL in seconds: node-cache
records the expiry instant `now + ttl * 1000`, with TTL `0` meaning no
expiry. -/
def cacheSet (c : Cache) (k : String) (v : SemrushApiResponse)
    (now ttl : Int) : Cache :=
  setEntry c k ⟨v, if ttl = 0 then 0 else now + ttl * 1000⟩

/-- The `RateLimiter` class state: the recorded request timestamps and
the configured per-second limit. -/
structure RateLimiter where
  requestTimestamps : List Int
  rateLimit : Int

/-- The `RateLimiter` constructor (lines 17 to 19 of semrush-api.ts):
it stores the given limit without any validation and starts with an
empty timestamp list. -/
def mkRateLimiter (rateLimit : Int) : RateLimiter :=
  ⟨[], rateLimit⟩

/-- `canMakeRequest` at clock reading `now`: prune timestamps at least
one second old (keep those strictly newer than `now - 1000`), store the
pruned list back, and report whether the pruned count is below the
configured limit. -/
def canMakeRequest (rl : RateLimiter) (now : Int) : RateLimiter × Bool :=
  let pruned := rl.requestTimestamps.filter (fun t => decide (now - 1000 < t))
  (⟨pruned, rl.rateLimit⟩, decide ((pruned.length : Int) < rl.rateLimit))

/-- `recordRequest` at clock reading `now`: push the timestamp. -/
def recordRequest (rl : RateLimiter) (now : Int) : RateLimiter :=
  ⟨rl.requestTimestamps ++ [now], rl.rateLimit⟩

/-- Outcome of one iteration of the polling loop in `waitForRateLimit`:
either the slot is granted (and recorded), or the loop schedules a retry
after a delay in milliseconds. -/
inductive WaitOutcome where
  | granted (rl : RateLimiter)
  | retry (delayMs : Nat) (rl : RateLimiter)

/-- One iteration of `waitForRateLimit` (lines 36 to 50 of
semrush-api.ts): check `canMakeRequest`; on success record the request
and resolve; otherwise wait 100 ms and check again. -/
def waitForRateLimitStep (rl : RateLimiter) (now : Int) : WaitOutcome :=
  let checked := canMakeRequest rl now
  if checked.2 then .granted (recordRequest checked.1 now)
  else .retry 100 checked.1

/-- The observable outcome of the upstream HTTP exchange for one call:
a response of some status arrived, or the transport failed with no
response, or a non-axios exception was thrown. -/
inductive HttpOutcome where
  | response (status : Nat) (headers : List (String × String)) (data : Json)
  | networkError (errMessage : String)
  | otherError (errMessage : String)

/-- How the awaited axios promise settles. A rejected axios call carries
its error message and, when a response was received, that response as
status and data (the only fields `makeRequest` reads from it). -/
inductive AxiosSettled where
  | fulfilled (status : Nat) (headers : List (String × String)) (data : Json)
  | axiosRejected (errMessage : String) (resp : Option (Nat × Json))
  | otherThrown (errMessage : String)

/-- Model of the axios call at line 119 of semrush-api.ts.  The source
passes no `validateStatus`, so the documented default of axios applies:
a response with status outside [200, 300) rejects the promise with an
`AxiosError` whose message is `Request failed with status code N` and
which carries the response; a transport failure rejects with an
`AxiosError` carrying no response. -/
def axiosCall : HttpOutcome → AxiosSettled
  | .response s h d =>
    if 200 ≤ s ∧ s < 300 then .fulfilled s h d
    else .axiosRejected ("Request failed with status code " ++ toString s) (some (s, d))
  | .networkError m => .axiosRejected m none
  | .otherError m => .otherThrown m

/-- Line 139 of semrush-api.ts:
`error.response?.data?.error?.message || error.message`. -/
def extractErrorMessage (resp : Option (Nat × Json)) (errMessage : String) : String :=
  match (resp.bind (fun p => jsonLookup p.2 "error")).bind
      (fun e => jsonLookup e "message") with
  | some j => if jsTruthy j then jsToString j else errMessage
  | none => errMessage

/-- Line 138 of semrush-api.ts: `error.response?.status || 500` (a falsy
status, absent or zero, falls back to 500). -/
def errorStatus (resp : Option (Nat × Json)) : Nat :=
  match resp with
  | some (0, _) => 500
  | some (s, _) => s
  | none => 500

/-- Everything observable about one `makeRequest` call: its result, the
cache and rate-limiter state afterwards, whether the network was used,
whether the rate limiter was consulted, and the parameter set sent
upstream when a request was issued. -/
structure MakeRequestResult where
  result : Except SemrushApiError SemrushApiResponse
  cache : Cache
  limiter : RateLimiter
  usedNetwork : Bool
  admitted : Bool
  sentParams : Option (List (String × QueryValue))

/-- Lines 92 to 148 of semrush-api.ts, `makeRequest`: add the API key to
the parameters; compute the cache key; on a cache hit return the cached
envelope untouched; on a miss wait for the rate limiter (modelled by the
grant instant `grantTime`, at which `canMakeRequest` prunes and
`recordRequest` records), issue the request, and either wrap and cache a
fulfilled response (stored at the arrival instant `respTime`) or throw a
`SemrushApiError` built from the rejection. -/
def makeRequest (apiKey : String) (cache : Cache) (limiter : RateLimiter)
    (now grantTime respTime ttl : Int) (url : String)
    (params : List (String × QueryValue)) (http : HttpOutcome) :
    MakeRequestResult :=
  let requestParams := buildRequestParams params apiKey
  let cacheKey := cacheKeyOf url params apiKey
  match cacheGet cache cacheKey now with
  | some cached => ⟨.ok cached, cache, limiter, false, false, none⟩
  | none =>
    let limiter' := recordRequest (canMakeRequest limiter grantTime).1 grantTime
    match axiosCall http with
    | .fulfilled status headers data =>
      let apiResponse : SemrushApiResponse := ⟨data, status, headers⟩
      ⟨.ok apiResponse, cacheSet cache cacheKey apiResponse respTime ttl,
        limiter', true, true, some requestParams⟩
    | .axiosRejected errMessage resp =>
      ⟨.error ⟨extractErrorMessage resp errMessage, errorStatus resp,
          resp.map Prod.snd⟩,
        cache, limiter', true, true, some requestParams⟩
    | .otherThrown errMessage =>
      ⟨.error ⟨errMessage, 500, none⟩, cache, limiter', true, true,
        some requestParams⟩

/-- The `SemrushApiClient` constructor (lines 84 to 89 of
semrush-api.ts): performs no network activity and throws
`Semrush API key is required` when the configured key is absent or
empty (JS falsy); otherwise it stores the key. -/
def mkSemrushApiClient (apiKey : Option String) : Except String String :=
  match apiKey with
  | none => .error "Semrush API key is required"
  | some k => if k = "" then .error "Semrush API key is required" else .ok k

/-- The primary analytics endpoint URL. -/
def SEMRUSH_API_BASE_URL : String := "https://api.semrush.com/"

/-- The traffic analytics (.Trends) endpoint URL prefix. -/
def TRENDS_API_BASE_URL : String := "https://api.semrush.com/analytics/ta/"

/-- JS truthiness of the optional numeric `limit` argument: absent and
zero are falsy, every other integer is truthy. -/
def limitTruthy : Option Int → Bool
  | none => false
  | some l => l ≠ 0

/-- Append `display_limit` to the parameters exactly when the limit is
truthy, matching the `if (limit)` guard of the operation methods. -/
def withDisplayLimit (params : List (String × QueryValue)) (limit : Option Int) :
    List (String × QueryValue) :=
  match limit with
  | some l => if l ≠ 0 then params ++ [("display_limit", .num l)] else params
  | none => params

/-- Parameters built by `getDomainOrganicKeywords` (lines 162 to 175). -/
def getDomainOrganicKeywordsParams (domain database : String)
    (limit : Option Int) : List (String × QueryValue) :=
  withDisplayLimit
    [("type", .str "domain_organic"), ("domain", .str domain),
     ("database", .str database),
     ("export_columns", .str "Ph,Po,Pp,Pd,Nq,Cp,Ur,Tr,Tc,Co,Nr,Td")]
    limit

/-- Parameters built by `getKeywordOrganicResults` (lines 282 to 295). -/
def getKeywordOrganicResultsParams (keyword database : String)
    (limit : Option Int) : List (String × QueryValue) :=
  withDisplayLimit
    [("type", .str "phrase_organic"), ("phrase", .str keyword),
     ("database", .str database),
     ("export_columns", .str "Po,Pt,Dn,Ur,Fk,Fp,Fl")]
    limit

/-- Parameters built by `getBatchKeywordOverview` (lines 272 to 279):
the keyword list is joined with semicolons into `phrase`. -/
def getBatchKeywordOverviewParams (keywords : List String) (database : String) :
    List (String × QueryValue) :=
  [("type", .str "phrase_these"),
   ("phrase", .str (String.intercalate ";" keywords)),
   ("database", .str database),
   ("export_columns", .str "Ph,Nq,Cp,Co,Nr,Td,In,Kd")]

/-- Parameters built by `getKeywordDifficulty` (lines 362 to 369):
the keyword list is joined with semicolons into `phrase`. -/
def getKeywordDifficultyParams (keywords : List String) (database : String) :
    List (String × QueryValue) :=
  [("type", .str "phrase_kdi"),
   ("phrase", .str (String.intercalate ";" keywords)),
   ("database", .str database),
   ("export_columns", .str "Ph,Kd")]

/-- Parameters built by `getTrafficSummary` (lines 372 to 378): the
domain list is joined with commas into `domains`. -/
def getTrafficSummaryParams (domains : List String) (country : String) :
    List (String × QueryValue) :=
  [("domains", .str (String.intercalate "," domains)),
   ("country", .str country), ("date", .str "all")]

/-- The URL used by `getTrafficSummary`. -/
def getTrafficSummaryUrl : String := TRENDS_API_BASE_URL ++ "summary"

/-! ### Helper lemmas -/

/-- Looking up a key right after property assignment yields the value
just assigned. -/
theorem lookup_setParam_self (ps : List (String × QueryValue)) (k : String)
    (v : QueryValue) : List.lookup k (setParam ps k v) = some v := by
  induction ps with
  | nil => simp [setParam, List.lookup]
  | cons p rest ih =>
    obtain ⟨k', v'⟩ := p
    by_cases h : k' = k
    · simp [setParam, h, List.lookup]
    · rw [setParam, if_neg h, List.lookup]
      have hb : (k == k') = false := beq_eq_false_iff_ne.mpr (fun hh => h hh.symm)
      rw [hb]
      exact ih

/-- Looking up a key right after a cache store yields the entry just
stored. -/
theorem lookup_setEntry_self (c : Cache) (k : String) (e : CacheEntry) :
    List.lookup k (setEntry c k e) = some e := by
  induction c with
  | nil => simp [setEntry, List.lookup]
  | cons p rest ih =>
    obtain ⟨k', e'⟩ := p
    by_cases h : k' = k
    · simp [setEntry, h, List.lookup]
    · rw [setEntry, if_neg h, List.lookup]
      have hb : (k == k') = false := beq_eq_false_iff_ne.mpr (fun hh => h hh.symm)
      rw [hb]
      exact ih

/-- A freshly stored entry is returned by any lookup at or before its
expiry instant. -/
theorem cacheGet_cacheSet_self (c : Cache) (k : String) (v : SemrushApiResponse)
    (now ttl t2 : Int) (h : t2 ≤ now + ttl * 1000) :
    cacheGet (cacheSet c k v now ttl) k t2 = some v := by
  simp only [cacheGet, cacheSet, lookup_setEntry_self]
  rw [if_neg]
  rintro ⟨h1, h2⟩
  by_cases httl : ttl = 0
  · rw [if_pos httl] at h1
    exact h1 rfl
  · rw [if_neg httl] at h2
    omega

/-- A cache miss stays a miss at any later instant: entries only expire
as the clock advances. -/
theorem cacheGet_none_mono (c : Cache) (k : String) (t t' : Int)
    (h : cacheGet c k t = none) (hle : t ≤ t') : cacheGet c k t' = none := by
  cases hl : List.lookup k c with
  | none => simp only [cacheGet, hl]
  | some entry =>
    simp only [cacheGet, hl] at h ⊢
    by_cases hp : entry.expiresAt ≠ 0 ∧ entry.expiresAt < t
    · rw [if_pos ⟨hp.1, lt_of_lt_of_le hp.2 hle⟩]
    · rw [if_neg hp] at h
      exact absurd h (by simp)

/-- On a cache hit, `makeRequest` returns the cached envelope and leaves
every piece of state untouched. -/
theorem makeRequest_hit_eq (apiKey url : String)
    (params : List (String × QueryValue)) (cache : Cache) (limiter : RateLimiter)
    (now g r ttl : Int) (http : HttpOutcome) (env : SemrushApiResponse)
    (hhit : cacheGet cache (cacheKeyOf url params apiKey) now = some env) :
    makeRequest apiKey cache limiter now g r ttl url params http
      = ⟨.ok env, cache, limiter, false, false, none⟩ := by
  simp only [makeRequest, hhit]

/-- A call that used the network and returned `ok env` stored `env` in
the cache at the response instant under the computed key. -/
theorem makeRequest_ok_of_network (apiKey url : String)
    (params : List (String × QueryValue)) (cache : Cache) (limiter : RateLimiter)
    (now g r ttl : Int) (http : HttpOutcome) (env : SemrushApiResponse)
    (hnet : (makeRequest apiKey cache limiter now g r ttl url params http).usedNetwork = true)
    (hok : (makeRequest apiKey cache limiter now g r ttl url params http).result = .ok env) :
    (makeRequest apiKey cache limiter now g r ttl url params http).cache
      = cacheSet cache (cacheKeyOf url params apiKey) env r ttl := by
  cases hm : cacheGet cache (cacheKeyOf url params apiKey) now with
  | some cached =>
    rw [makeRequest_hit_eq apiKey url params cache limiter now g r ttl http cached hm] at hnet
    exact absurd hnet (by simp)
  | none =>
    simp only [makeRequest, hm] at hok ⊢
    cases ha : axiosCall http with
    | fulfilled s hd d =>
      simp only [ha] at hok ⊢
      simp only [Except.ok.injEq] at hok
      rw [hok]
    | axiosRejected m resp =>
      simp only [ha] at hok
      exact absurd hok (by simp)
    | otherThrown m =>
      simp only [ha] at hok
      exact absurd hok (by simp)

/-- A call that failed with an error took the cache-miss path. -/
theorem makeRequest_cacheGet_of_error (apiKey url : String)
    (params : List (String × QueryValue)) (cache : Cache) (limiter : RateLimiter)
    (now g r ttl : Int) (http : HttpOutcome) (e : SemrushApiError)
    (herr : (makeRequest apiKey cache limiter now g r ttl url params http).result = .error e) :
    cacheGet cache (cacheKeyOf url params apiKey) now = none := by
  cases hm : cacheGet cache (cacheKeyOf url params apiKey) now with
  | none => rfl
  | some cached =>
    rw [makeRequest_hit_eq apiKey url params cache limiter now g r ttl http cached hm] at herr
    exact absurd herr (by simp)

/-- On a miss, `makeRequest` issues the upstream request. -/
theorem makeRequest_usedNetwork_of_miss (apiKey url : String)
    (params : List (String × QueryValue)) (cache : Cache) (limiter : RateLimiter)
    (now g r ttl : Int) (http : HttpOutcome)
    (hmiss : cacheGet cache (cacheKeyOf url params apiKey) now = none) :
    (makeRequest apiKey cache limiter now g r ttl url params http).usedNetwork = true := by
  simp only [makeRequest, hmiss]
  cases ha : axiosCall http <;> simp [ha]

/-- The status of an error with a response present is the upstream
status whenever that status is nonzero (the falsy fallback to 500 fires
only for a zero status). -/
theorem errorStatus_pos (s : Nat) (d : Json) (hs : 0 < s) :
    errorStatus (some (s, d)) = s := by
  cases s with
  | zero => omega
  | succ n => rfl

/-- On a cache miss, a non-2xx response whose body carries a truthy
nested error message surfaces that message with the upstream status and
the raw payload. -/
theorem makeRequest_structured_error (apiKey url : String)
    (params : List (String × QueryValue)) (cache : Cache) (limiter : RateLimiter)
    (now g r ttl : Int) (s : Nat) (hd : List (String × String)) (d innerErr : Json)
    (m : String)
    (hmiss : cacheGet cache (cacheKeyOf url params apiKey) now = none)
    (hnon : ¬ (200 ≤ s ∧ s < 300)) (hs : 0 < s)
    (herr : jsonLookup d "error" = some innerErr)
    (hmsg : jsonLookup innerErr "message" = some (.str m)) (hm : m ≠ "") :
    (makeRequest apiKey cache limiter now g r ttl url params (.response s hd d)).result
      = .error ⟨m, s, some d⟩ := by
  simp only [makeRequest, hmiss, axiosCall, if_neg hnon]
  have hmsgEq : extractErrorMessage (some (s, d))
      ("Request failed with status code " ++ toString s) = m := by
    simp [extractErrorMessage, herr, hmsg, jsTruthy, jsToString, hm]
  simp [hmsgEq, errorStatus_pos s d hs]

/-! ### Claim theorems -/

/-- Claim C2 (code bug): the spec requires a limit of 0 or negative to
be rejected at configuration time, but the `RateLimiter` constructor
stores any limit without validation, and the resulting limiter admits
nothing: `canMakeRequest` is false for every state and every instant, so
`waitForRateLimit` polls forever instead of failing fast. -/
theorem rateLimiter_nonpositive_limit_not_rejected :
    mkRateLimiter 0 = ⟨[], 0⟩ ∧ mkRateLimiter (-1) = ⟨[], -1⟩ ∧
    ∀ (ts : List Int) (now : Int),
      (canMakeRequest ⟨ts, 0⟩ now).2 = false ∧
      (canMakeRequest ⟨ts, -1⟩ now).2 = false := by
  refine ⟨rfl, rfl, fun ts now => ⟨?_, ?_⟩⟩ <;>
    · simp only [canMakeRequest, decide_eq_false_iff_not]
      omega

/-- Claim C3: constructing the API client with no credential configured
(absent or empty key) fails immediately with the construction error,
before any request is possible; any nonempty key is accepted. -/
theorem client_requires_api_key :
    mkSemrushApiClient none = .error "Semrush API key is required" ∧
    mkSemrushApiClient (some "") = .error "Semrush API key is required" ∧
    ∀ k : String, k ≠ "" → mkSemrushApiClient (some k) = .ok k :=
  ⟨rfl, rfl, fun k hk => by simp [mkSemrushApiClient, hk]⟩

/-- Witness for claim C3 at the concrete key `abc`. -/
theorem client_requires_api_key_witness :
    mkSemrushApiClient (some "abc") = .ok "abc" :=
  client_requires_api_key.2.2 "abc" (by decide)

/-- Claim C5: immediately following an admission grant of the rate
limiter, the state holds at most `rateLimit` timestamps less than one
second old; and when no slot is free the request is delayed by a 100 ms
retry, never rejected. -/
theorem rateLimiter_admission_window_bound (rl : RateLimiter) (now : Int) :
    (∀ rl', waitForRateLimitStep rl now = .granted rl' →
      ((rl'.requestTimestamps.filter (fun t => decide (now - 1000 < t))).length : Int)
        ≤ rl.rateLimit) ∧
    (∀ d rl', waitForRateLimitStep rl now = .retry d rl' → d = 100) := by
  constructor
  · intro rl' h
    simp only [waitForRateLimitStep] at h
    by_cases hc : (canMakeRequest rl now).2
    · rw [if_pos hc] at h
      cases h
      simp only [canMakeRequest, decide_eq_true_eq] at hc
      have hlen : ((recordRequest (canMakeRequest rl now).1 now).requestTimestamps.filter
            (fun t => decide (now - 1000 < t))).length
          ≤ (rl.requestTimestamps.filter (fun t => decide (now - 1000 < t))).length + 1 := by
        calc ((recordRequest (canMakeRequest rl now).1 now).requestTimestamps.filter
              (fun t => decide (now - 1000 < t))).length
            ≤ ((recordRequest (canMakeRequest rl now).1 now).requestTimestamps).length :=
              List.length_filter_le _ _
          _ = (rl.requestTimestamps.filter (fun t => decide (now - 1000 < t))).length + 1 := by
              simp [recordRequest, canMakeRequest]
      omega
    · rw [if_neg hc] at h
      exact absurd h (by simp)
  · intro d rl' h
    simp only [waitForRateLimitStep] at h
    by_cases hc : (canMakeRequest rl now).2
    · rw [if_pos hc] at h
      exact absurd h (by simp)
    · rw [if_neg hc] at h
      cases h
      rfl

/-- Witness for claim C5: with limit 10 and empty state, the grant at
instant 0 leaves one fresh timestamp, at most the limit. -/
theorem rateLimiter_admission_window_bound_witness :
    ((((⟨[0], 10⟩ : RateLimiter).requestTimestamps.filter
        (fun t => decide ((0 : Int) - 1000 < t))).length : Int) ≤ (10 : Int)) :=
  (rateLimiter_admission_window_bound ⟨[], 10⟩ 0).1 ⟨[0], 10⟩ rfl

/-- Claim C9: array-valued arguments are serialized as delimiter-joined
strings: the batch keyword operations send `phrase` as the
semicolon-joined keyword list, and the traffic summary operation sends
`domains` as the comma-joined domain list; in particular the keyword
list `a, b, c` yields `phrase=a;b;c`. -/
theorem batch_arguments_delimiter_joined :
    (∀ (keywords : List String) (database : String),
      List.lookup "phrase" (getBatchKeywordOverviewParams keywords database)
        = some (.str (String.intercalate ";" keywords))) ∧
    (∀ (keywords : List String) (database : String),
      List.lookup "phrase" (getKeywordDifficultyParams keywords database)
        = some (.str (String.intercalate ";" keywords))) ∧
    (∀ (domains : List String) (country : String),
      List.lookup "domains" (getTrafficSummaryParams domains country)
        = some (.str (String.intercalate "," domains))) ∧
    List.lookup "phrase" (getBatchKeywordOverviewParams ["a", "b", "c"] "uk")
      = some (.str "a;b;c") :=
  ⟨fun _ _ => rfl, fun _ _ => rfl, fun _ _ => rfl, rfl⟩

/-- Claim C10: a caller-supplied display limit of 0 is treated exactly
like no limit: the truthiness guard drops it, so `display_limit` is
absent from the outgoing parameter set of both operations. -/
theorem zero_limit_omitted :
    (∀ domain database, getDomainOrganicKeywordsParams domain database (some 0)
        = getDomainOrganicKeywordsParams domain database none) ∧
    (∀ domain database, List.lookup "display_limit"
        (getDomainOrganicKeywordsParams domain database (some 0)) = none) ∧
    (∀ keyword database, getKeywordOrganicResultsParams keyword database (some 0)
        = getKeywordOrganicResultsParams keyword database none) ∧
    (∀ keyword database, List.lookup "display_limit"
        (getKeywordOrganicResultsParams keyword database (some 0)) = none) :=
  ⟨fun _ _ => rfl, fun _ _ => rfl, fun _ _ => rfl, fun _ _ => rfl⟩

/-- Claim C1 is false on the code: here the upstream returns an HTTP
response (status 403 with a plain body), yet the call does not succeed
and nothing is stored in the cache — the default status validation of
axios rejects every non-2xx response, so the call surfaces a
SemrushApiError and leaves the cache unchanged. -/
theorem non2xx_response_not_cached_counterexample :
    (makeRequest "k" [] ⟨[], 10⟩ 0 0 0 300 "u" []
        (.response 403 [] (.str "Forbidden"))).result
      = .error ⟨"Request failed with status code 403", 403, some (.str "Forbidden")⟩ ∧
    (makeRequest "k" [] ⟨[], 10⟩ 0 0 0 300 "u" []
        (.response 403 [] (.str "Forbidden"))).cache
      = ([] : Cache) :=
  ⟨rfl, rfl⟩

/-- Claim C1 amended: only a 2xx upstream response is wrapped into the
envelope, stored in the cache under the computed key, and returned; a
non-2xx response is rejected by the default status validation of the
HTTP client and surfaces as a SemrushApiError carrying the upstream
status, leaving the cache unchanged. -/
theorem makeRequest_2xx_cached_non2xx_error (apiKey url : String)
    (params : List (String × QueryValue)) (cache : Cache) (limiter : RateLimiter)
    (now g r ttl : Int) (s : Nat) (hd : List (String × String)) (d : Json)
    (hmiss : cacheGet cache (cacheKeyOf url params apiKey) now = none) :
    ((200 ≤ s ∧ s < 300) →
      makeRequest apiKey cache limiter now g r ttl url params (.response s hd d)
        = ⟨.ok ⟨d, s, hd⟩,
            cacheSet cache (cacheKeyOf url params apiKey) ⟨d, s, hd⟩ r ttl,
            recordRequest (canMakeRequest limiter g).1 g, true, true,
            some (buildRequestParams params apiKey)⟩) ∧
    (¬ (200 ≤ s ∧ s < 300) → 0 < s →
      (makeRequest apiKey cache limiter now g r ttl url params (.response s hd d)).result
        = .error ⟨extractErrorMessage (some (s, d))
              ("Request failed with status code " ++ toString s), s, some d⟩ ∧
      (makeRequest apiKey cache limiter now g r ttl url params (.response s hd d)).cache
        = cache) := by
  constructor
  · intro h2xx
    simp only [makeRequest, hmiss, axiosCall, if_pos h2xx]
  · intro hnon hs
    simp only [makeRequest, hmiss, axiosCall, if_neg hnon]
    exact ⟨by simp [errorStatus_pos s d hs], trivial⟩

/-- Witness for claim C1 as amended, at the concrete 2xx status 201. -/
theorem makeRequest_2xx_cached_witness :
    (makeRequest "k" [] ⟨[], 10⟩ 0 0 0 300 "u" [] (.response 201 [] .null)).result
      = .ok ⟨.null, 201, []⟩ := by
  rw [(makeRequest_2xx_cached_non2xx_error "k" "u" [] [] ⟨[], 10⟩ 0 0 0 300 201 []
    .null rfl).1 (by decide)]

/-- Claim C4: the parameter set passed to the upstream call includes the
configured credential under `key`, and the cache key is the endpoint URL
joined with the full JSON serialization of that parameter set, the
credential included. -/
theorem makeRequest_includes_credential (apiKey url : String)
    (params : List (String × QueryValue)) (cache : Cache) (limiter : RateLimiter)
    (now g r ttl : Int) (http : HttpOutcome)
    (hmiss : cacheGet cache (cacheKeyOf url params apiKey) now = none) :
    List.lookup "key" (buildRequestParams params apiKey) = some (.str apiKey) ∧
    cacheKeyOf url params apiKey
      = url ++ ":" ++ jsonStringifyParams (buildRequestParams params apiKey) ∧
    (makeRequest apiKey cache limiter now g r ttl url params http).sentParams
      = some (buildRequestParams params apiKey) := by
  refine ⟨lookup_setParam_self params "key" (.str apiKey), rfl, ?_⟩
  simp only [makeRequest, hmiss]
  cases ha : axiosCall http <;> simp [ha]

/-- Witness for claim C4 at a concrete credential. -/
theorem makeRequest_includes_credential_witness :
    List.lookup "key" (buildRequestParams [] "secret") = some (.str "secret") :=
  (makeRequest_includes_credential "secret" "u" [] [] ⟨[], 10⟩ 0 0 0 300
    (.response 200 [] .null) rfl).1

/-- Claim C6: after a first call that fetched and cached an envelope, a
second call with identical URL and arguments within the TTL returns the
identical cached envelope, performs no upstream request, and neither
consults nor mutates the rate limiter. -/
theorem cached_second_call_frame (apiKey url : String)
    (params : List (String × QueryValue)) (cache : Cache)
    (limiter1 limiter2 : RateLimiter) (t1 g1 p1 t2 g2 p2 ttl : Int)
    (http1 http2 : HttpOutcome) (env : SemrushApiResponse)
    (hnet : (makeRequest apiKey cache limiter1 t1 g1 p1 ttl url params http1).usedNetwork = true)
    (hok : (makeRequest apiKey cache limiter1 t1 g1 p1 ttl url params http1).result = .ok env)
    (httl : t2 ≤ p1 + ttl * 1000) :
    makeRequest apiKey (makeRequest apiKey cache limiter1 t1 g1 p1 ttl url params http1).cache
        limiter2 t2 g2 p2 ttl url params http2
      = ⟨.ok env, (makeRequest apiKey cache limiter1 t1 g1 p1 ttl url params http1).cache,
          limiter2, false, false, none⟩ := by
  have hc := makeRequest_ok_of_network apiKey url params cache limiter1 t1 g1 p1 ttl http1 env
    hnet hok
  have hhit : cacheGet (makeRequest apiKey cache limiter1 t1 g1 p1 ttl url params http1).cache
      (cacheKeyOf url params apiKey) t2 = some env := by
    rw [hc]
    exact cacheGet_cacheSet_self cache (cacheKeyOf url params apiKey) env p1 ttl t2 httl
  exact makeRequest_hit_eq apiKey url params _ limiter2 t2 g2 p2 ttl http2 env hhit

/-- Witness for claim C6: a concrete first call caches the envelope and
the second call 1000 ms later returns it from the cache. -/
theorem cached_second_call_frame_witness :
    (makeRequest "k" (makeRequest "k" [] ⟨[], 10⟩ 0 0 0 300 "u" []
          (.response 200 [] (.str "d"))).cache
        ⟨[5], 10⟩ 1000 1000 1000 300 "u" [] (.networkError "down")).result
      = .ok ⟨.str "d", 200, []⟩ := by
  rw [cached_second_call_frame "k" "u" [] [] ⟨[], 10⟩ ⟨[5], 10⟩ 0 0 0 1000 1000 1000 300
    (.response 200 [] (.str "d")) (.networkError "down") ⟨.str "d", 200, []⟩ rfl rfl (by decide)]

/-- Claim C7: a call that fails with a SemrushApiError stores nothing:
the cache is unchanged, and a later identical invocation misses the
cache and issues a fresh upstream request. -/
theorem error_not_cached (apiKey url : String)
    (params : List (String × QueryValue)) (cache : Cache) (limiter : RateLimiter)
    (now g r ttl : Int) (http : HttpOutcome) (e : SemrushApiError)
    (herr : (makeRequest apiKey cache limiter now g r ttl url params http).result = .error e) :
    (makeRequest apiKey cache limiter now g r ttl url params http).cache = cache ∧
    ∀ (t2 g2 r2 : Int) (limiter2 : RateLimiter) (http2 : HttpOutcome), now ≤ t2 →
      (makeRequest apiKey cache limiter2 t2 g2 r2 ttl url params http2).usedNetwork = true := by
  have hmiss := makeRequest_cacheGet_of_error apiKey url params cache limiter now g r ttl http e
    herr
  constructor
  · simp only [makeRequest, hmiss] at herr ⊢
    cases ha : axiosCall http with
    | fulfilled s hd d =>
      simp only [ha] at herr
      exact absurd herr (by simp)
    | axiosRejected m resp => simp [ha]
    | otherThrown m => simp [ha]
  · intro t2 g2 r2 limiter2 http2 hle
    exact makeRequest_usedNetwork_of_miss apiKey url params cache limiter2 t2 g2 r2 ttl http2
      (cacheGet_none_mono cache (cacheKeyOf url params apiKey) now t2 hmiss hle)

/-- Witness for claim C7: a concrete transport failure leaves the cache
empty and a later identical call goes to the network. -/
theorem error_not_cached_witness :
    (makeRequest "k" [] ⟨[], 10⟩ 0 0 0 300 "u" [] (.networkError "refused")).cache
      = ([] : Cache) ∧
    (makeRequest "k" [] ⟨[], 20⟩ 7 7 7 300 "u" [] (.response 200 [] .null)).usedNetwork
      = true := by
  have h := error_not_cached "k" "u" [] [] ⟨[], 10⟩ 0 0 0 300 (.networkError "refused")
    ⟨"refused", 500, none⟩ rfl
  exact ⟨h.1, h.2 7 7 7 ⟨[], 20⟩ (.response 200 [] .null) (by decide)⟩

/-- Claim C8: an upstream error response with structured error data
surfaces as a SemrushApiError whose message is the nested error message
(falling back to the message of the transport error when the body
carries none), whose status is the upstream status when a response is
present and 500 otherwise, and which carries the raw error payload; the
concrete 403 body whose nested message is Access denied surfaces as
that message with status 403. -/
theorem error_normalization_shape (apiKey url : String)
    (params : List (String × QueryValue)) (cache : Cache) (limiter : RateLimiter)
    (now g r ttl : Int)
    (hmiss : cacheGet cache (cacheKeyOf url params apiKey) now = none) :
    (∀ (s : Nat) (hd : List (String × String)) (d innerErr : Json) (m : String),
      ¬ (200 ≤ s ∧ s < 300) → 0 < s →
      jsonLookup d "error" = some innerErr →
      jsonLookup innerErr "message" = some (.str m) → m ≠ "" →
      (makeRequest apiKey cache limiter now g r ttl url params (.response s hd d)).result
        = .error ⟨m, s, some d⟩) ∧
    (∀ (s : Nat) (hd : List (String × String)) (d : Json),
      ¬ (200 ≤ s ∧ s < 300) → 0 < s → jsonLookup d "error" = none →
      (makeRequest apiKey cache limiter now g r ttl url params (.response s hd d)).result
        = .error ⟨"Request failed with status code " ++ toString s, s, some d⟩) ∧
    (∀ errMessage : String,
      (makeRequest apiKey cache limiter now g r ttl url params
          (.networkError errMessage)).result
        = .error ⟨errMessage, 500, none⟩) ∧
    (makeRequest apiKey cache limiter now g r ttl url params
        (.response 403 [] (.obj [("error", .obj [("message", .str "Access denied")])]))).result
      = .error ⟨"Access denied", 403,
          some (.obj [("error", .obj [("message", .str "Access denied")])])⟩ := by
  refine ⟨?_, ?_, ?_, ?_⟩
  · intro s hd d innerErr m hnon hs herr hmsg hm
    exact makeRequest_structured_error apiKey url params cache limiter now g r ttl s hd d
      innerErr m hmiss hnon hs herr hmsg hm
  · intro s hd d hnon hs herr
    simp only [makeRequest, hmiss, axiosCall, if_neg hnon]
    have hmsgEq : extractErrorMessage (some (s, d))
          ("Request failed with status code " ++ toString s)
        = "Request failed with status code " ++ toString s := by
      simp [extractErrorMessage, herr]
    simp [hmsgEq, errorStatus_pos s d hs]
  · intro errMessage
    simp only [makeRequest, hmiss, axiosCall]
    simp [extractErrorMessage, errorStatus]
  · exact makeRequest_structured_error apiKey url params cache limiter now g r ttl 403 []
      (.obj [("error", .obj [("message", .str "Access denied")])])
      (.obj [("message", .str "Access denied")]) "Access denied"
      hmiss (by decide) (by decide) rfl rfl (by decide)

/-- Witness for claim C8 at the concrete 403 structured error body. -/
theorem error_normalization_shape_witness :
    (makeRequest "k" [] ⟨[], 10⟩ 0 0 0 300 "u" []
        (.response 403 [] (.obj [("error", .obj [("message", .str "Access denied")])]))).result
      = .error ⟨"Access denied", 403,
          some (.obj [("error", .obj [("message", .str "Access denied")])])⟩ :=
  (error_normalization_shape "k" "u" [] [] ⟨[], 10⟩ 0 0 0 300 rfl).2.2.2

end SemrushMcp
